import Mathlib

set_option linter.unusedVariables false

/-!
Verification of the drawing-entity data model of the realdwg-web repository.

The TypeScript entity classes are shallowly embedded: each entity class
becomes a Lean structure holding its constructor fields, each method or
accessor becomes a function on that structure, numbers become real numbers,
and throwing operations return `Except String`.  Collaborator types that the
repository only consumes (the geometry engine and the common package) are
modelled from the interface the specification describes for them; every such
definition is marked in its doc comment.
-/

/-! ## Geometry-engine primitives -/

/-- A 2d point of the geometry engine, with real coordinates. -/
structure AcGePoint2d where
  x : ℝ
  y : ℝ


/-- A 3d point (also used for vectors) of the geometry engine. -/
structure AcGePoint3d where
  x : ℝ
  y : ℝ
  z : ℝ


/-- Componentwise sum, the geometry-engine `add`. -/
def AcGePoint3d.add (p q : AcGePoint3d) : AcGePoint3d :=
  ⟨p.x + q.x, p.y + q.y, p.z + q.z⟩

/-- Scalar multiple, the geometry-engine `multiplyScalar`. -/
def AcGePoint3d.multiplyScalar (p : AcGePoint3d) (s : ℝ) : AcGePoint3d :=
  ⟨p.x * s, p.y * s, p.z * s⟩

/-- Componentwise minimum of two 3d points. -/
def AcGePoint3d.compMin (p q : AcGePoint3d) : AcGePoint3d :=
  ⟨min p.x q.x, min p.y q.y, min p.z q.z⟩

/-- Componentwise maximum of two 3d points. -/
def AcGePoint3d.compMax (p q : AcGePoint3d) : AcGePoint3d :=
  ⟨max p.x q.x, max p.y q.y, max p.z q.z⟩

/-- An axis-aligned 3d box of the geometry engine. -/
structure AcGeBox3d where
  boxMin : AcGePoint3d
  boxMax : AcGePoint3d


/-- Modelled from the spec: a freshly constructed `AcGeBox3d` is empty and
`expandByPoint` grows it to enclose the given point; an empty box is
represented by `none`. -/
def expandByPoint (b : Option AcGeBox3d) (p : AcGePoint3d) : Option AcGeBox3d :=
  match b with
  | none => some ⟨p, p⟩
  | some bb => some ⟨bb.boxMin.compMin p, bb.boxMax.compMax p⟩

/-- Modelled from the spec: the box spanned by two points, the result of
expanding an empty box by both. -/
def boxSpanned (p q : AcGePoint3d) : AcGeBox3d :=
  ⟨p.compMin q, p.compMax q⟩

/-- A 2d axis-aligned box of the geometry engine. -/
structure AcGeBox2d where
  boxMin : AcGePoint2d
  boxMax : AcGePoint2d


/-- Modelled from the spec: `AcGeBox2d.setFromPoints` computes the bounding
box of a point list by expanding an initially empty box with every point;
the seed point plays the role of the first expansion. -/
def box2FromPoints (q : AcGePoint2d) (qs : List AcGePoint2d) : AcGeBox2d :=
  qs.foldl
    (fun b p => ⟨⟨min b.boxMin.x p.x, min b.boxMin.y p.y⟩,
                 ⟨max b.boxMax.x p.x, max b.boxMax.y p.y⟩⟩)
    ⟨q, q⟩

/-- Modelled from the spec: the geometry-engine rotation of a 2d point about
a center point by an angle in radians (`AcGePoint2d.rotateAround`). -/
noncomputable def rotateAround (p c : AcGePoint2d) (angle : ℝ) : AcGePoint2d :=
  ⟨c.x + (p.x - c.x) * Real.cos angle - (p.y - c.y) * Real.sin angle,
   c.y + (p.x - c.x) * Real.sin angle + (p.y - c.y) * Real.cos angle⟩

/-! ## Ray and construction line (`AcDbRay`, `AcDbXline`) -/

/-- The state of `AcDbRay`: a base point and a unit direction. -/
structure AcDbRay where
  basePoint : AcGePoint3d
  unitDir : AcGePoint3d

/-- The state of `AcDbXline`: a base point and a unit direction. -/
structure AcDbXline where
  basePoint : AcGePoint3d
  unitDir : AcGePoint3d

/-- The point list `AcDbRay.draw` hands to `renderer.lines`: the base point
and the base point displaced by one million times the unit direction. -/
def AcDbRay.drawPoints (r : AcDbRay) : List AcGePoint3d :=
  [r.basePoint, (r.unitDir.multiplyScalar 1000000).add r.basePoint]

/-- The point list `AcDbXline.draw` hands to `renderer.lines`: the base point
displaced by minus and plus one million times the unit direction. -/
def AcDbXline.drawPoints (x : AcDbXline) : List AcGePoint3d :=
  [(x.unitDir.multiplyScalar (-1000000)).add x.basePoint,
   (x.unitDir.multiplyScalar 1000000).add x.basePoint]

/-- `AcDbRay.geometricExtents`: an empty box expanded by the base point
displaced by plus and minus ten times the unit direction. -/
def AcDbRay.geometricExtents (r : AcDbRay) : Option AcGeBox3d :=
  expandByPoint
    (expandByPoint none ((r.unitDir.multiplyScalar 10).add r.basePoint))
    ((r.unitDir.multiplyScalar (-10)).add r.basePoint)

/-- `AcDbXline.geometricExtents`: an empty box expanded by the base point
displaced by plus and minus ten times the unit direction. -/
def AcDbXline.geometricExtents (x : AcDbXline) : Option AcGeBox3d :=
  expandByPoint
    (expandByPoint none ((x.unitDir.multiplyScalar 10).add x.basePoint))
    ((x.unitDir.multiplyScalar (-10)).add x.basePoint)

/-! ## Line (`AcDbLine`) -/

/-- Modelled from the spec: the geometry-engine line segment
(`AcGeLine3d`), holding its two endpoints. -/
structure AcGeLine3d where
  startPoint : AcGePoint3d
  endPoint : AcGePoint3d

/-- Modelled from the spec: the midpoint of the segment, halfway between the
two endpoints. -/
noncomputable def AcGeLine3d.midPoint (g : AcGeLine3d) : AcGePoint3d :=
  ⟨(g.startPoint.x + g.endPoint.x) / 2,
   (g.startPoint.y + g.endPoint.y) / 2,
   (g.startPoint.z + g.endPoint.z) / 2⟩

/-- Modelled from the spec: the bounding box of the segment, spanning
exactly the two endpoints. -/
def AcGeLine3d.box (g : AcGeLine3d) : AcGeBox3d :=
  boxSpanned g.startPoint g.endPoint

/-- Modelled from the spec: the projection of a point onto the line
(`AcGeLine3d.project`), the foot of the orthogonal projection. -/
noncomputable def AcGeLine3d.project (g : AcGeLine3d) (p : AcGePoint3d) : AcGePoint3d :=
  let d := (g.endPoint.add (g.startPoint.multiplyScalar (-1)))
  let w := (p.add (g.startPoint.multiplyScalar (-1)))
  let t := (w.x * d.x + w.y * d.y + w.z * d.z) / (d.x * d.x + d.y * d.y + d.z * d.z)
  g.startPoint.add (d.multiplyScalar t)

/-- Modelled from the spec: the foot of the perpendicular from a point to
the line (`AcGeLine3d.perpPoint`). -/
noncomputable def AcGeLine3d.perpPoint (g : AcGeLine3d) (p : AcGePoint3d) : AcGePoint3d :=
  g.project p

/-- The state of `AcDbLine`: its underlying geometric segment. -/
structure AcDbLine where
  geo : AcGeLine3d

/-- `AcDbLine.startPoint` reads the segment start. -/
def AcDbLine.startPoint (l : AcDbLine) : AcGePoint3d := l.geo.startPoint

/-- `AcDbLine.endPoint` reads the segment end. -/
def AcDbLine.endPoint (l : AcDbLine) : AcGePoint3d := l.geo.endPoint

/-- `AcDbLine.midPoint` delegates to the geometry engine midpoint. -/
noncomputable def AcDbLine.midPoint (l : AcDbLine) : AcGePoint3d := l.geo.midPoint

/-- `AcDbLine.geometricExtents` returns the box of the underlying segment. -/
def AcDbLine.geometricExtents (l : AcDbLine) : AcGeBox3d := l.geo.box

/-- `AcDbLine.subGetGripPoints` pushes the midpoint, the start point and the
end point, in that order. -/
noncomputable def AcDbLine.subGetGripPoints (l : AcDbLine) : List AcGePoint3d :=
  [l.midPoint, l.startPoint, l.endPoint]

/-- Modelled from the spec: the object-snap mode enumeration; the modes the
curve dispatch handles are listed, and `other` stands for any further
enumerated mode, which the dispatch treats as unknown. -/
inductive AcDbOsnapMode where
  | endPoint
  | midPoint
  | nearest
  | perpendicular
  | tangent
  | other
deriving DecidableEq

/-- `AcDbLine.subGetOsnapPoints`: the mode dispatch, appending candidate
snap points to the caller-supplied array and returning the grown array. -/
noncomputable def AcDbLine.subGetOsnapPoints (l : AcDbLine) (osnapMode : AcDbOsnapMode)
    (pickPoint lastPoint : AcGePoint3d) (snapPoints : List AcGePoint3d) :
    List AcGePoint3d :=
  match osnapMode with
  | .endPoint => snapPoints ++ [l.startPoint, l.endPoint]
  | .midPoint => snapPoints ++ [l.midPoint]
  | .nearest => snapPoints ++ [l.geo.project pickPoint]
  | .perpendicular => snapPoints ++ [l.geo.perpPoint pickPoint]
  | .tangent => snapPoints ++ [l.startPoint]
  | .other => snapPoints

/-- `AcDbEntity.subGetOsnapPoints`, the base-class default: a no-op that
appends nothing, inherited by every curve entity without an override. -/
def entityDefaultOsnapPoints (osnapMode : AcDbOsnapMode)
    (pickPoint lastPoint : AcGePoint3d) (snapPoints : List AcGePoint3d) :
    List AcGePoint3d :=
  snapPoints

/-! ## Face (`AcDbFace`) -/

/-- The state of `AcDbFace`: three or four vertices and the 4-bit
edge-invisibility mask. -/
structure AcDbFace where
  vertices : List AcGePoint3d
  edgeInvisibilities : Nat

/-- `AcDbFace.isEdgeVisibleAt`: throws on an index outside 0..3, otherwise
tests whether bit `index` of the invisibility mask is zero. -/
def AcDbFace.isEdgeVisibleAt (f : AcDbFace) (index : Int) : Except String Bool :=
  if index < 0 ∨ index > 3 then
    Except.error "Index out of range"
  else
    Except.ok (f.edgeInvisibilities &&& (1 <<< index.toNat) = 0)

/-- `AcDbFace.makeEdgeInvisibleAt`: throws on an index outside 0..3,
otherwise ors bit `index` into the invisibility mask. -/
def AcDbFace.makeEdgeInvisibleAt (f : AcDbFace) (index : Int) : Except String AcDbFace :=
  if index < 0 ∨ index > 3 then
    Except.error "Index out of range"
  else
    Except.ok { f with
      edgeInvisibilities := f.edgeInvisibilities ||| (1 <<< index.toNat) }

/-! ## Leader (`AcDbLeader`) and its lazy spline cache -/

/-- Modelled from the spec: the geometry-engine NURBS spline built from fit
points with the named knot parameterization (`AcGeSpline3d`); the data model
only constructs it and hands it on, so it is modelled as the construction
data itself. -/
structure AcGeSpline3d where
  fitPoints : List AcGePoint3d
  knotParam : String

/-- The state of `AcDbLeader`; the annotation-type enum member is kept as
its numeric value. -/
structure AcDbLeader where
  isSplined : Bool
  splineGeo : Option AcGeSpline3d
  updated : Bool
  hasArrowHead : Bool
  vertices : List AcGePoint3d
  dimensionStyle : String
  hasHookLine : Bool
  annoType : Nat

/-- The `AcDbLeader` constructor defaults. -/
def AcDbLeader.new : AcDbLeader :=
  { isSplined := false
    splineGeo := none
    updated := false
    hasArrowHead := false
    vertices := []
    dimensionStyle := ""
    hasHookLine := false
    annoType := 3 }

/-- `AcDbLeader.appendVertex` pushes a copy of the point and raises the
updated flag. -/
def AcDbLeader.appendVertex (l : AcDbLeader) (point : AcGePoint3d) : AcDbLeader :=
  { l with vertices := l.vertices ++ [point], updated := true }

/-- `AcDbLeader.setVertexAt`, exactly as written in the source: the guarded
block runs only when the index is OUT of range, where the vertex-array read
yields an undefined element and the `copy` call on it raises a type error
before the updated flag is assigned; when the index is in range the block is
skipped and the unconditional range error is thrown.  Either way the call
throws and the state is unchanged, so a successful result never occurs. -/
def AcDbLeader.setVertexAt (l : AcDbLeader) (index : Int) (point : AcGePoint3d) :
    Except String AcDbLeader :=
  if index < 0 ∨ index ≥ l.vertices.length then
    Except.error "TypeError: cannot call copy on an undefined array element"
  else
    Except.error "The vertex index is out of range!"

/-- `AcDbLeader.vertexAt`, exactly as written in the source: the guarded
block runs only when the index is OUT of range and merely reads (and
discards) the array element; in every case the function falls through to
the unconditional range error. -/
def AcDbLeader.vertexAt (l : AcDbLeader) (index : Int) : Except String AcGePoint3d :=
  if index < 0 ∨ index ≥ l.vertices.length then
    Except.error "The vertex index is out of range!"
  else
    Except.error "The vertex index is out of range!"

/-- `AcDbLeader.createSplineIfNeeded`: rebuilds the cached spline from the
current vertex list when the leader is spline-fit, has at least two
vertices, and the cache is absent or stale; lowers the updated flag on
rebuild. -/
def AcDbLeader.createSplineIfNeeded (l : AcDbLeader) : AcDbLeader :=
  if l.isSplined ∧ 2 ≤ l.vertices.length ∧ (l.splineGeo.isNone ∨ l.updated) then
    { l with splineGeo := some ⟨l.vertices, "Uniform"⟩, updated := false }
  else
    l

/-- The private `splineGeo` getter: triggers `createSplineIfNeeded` and
returns the resulting state together with the cached spline. -/
def AcDbLeader.readSpline (l : AcDbLeader) : AcDbLeader × Option AcGeSpline3d :=
  let l2 := l.createSplineIfNeeded
  (l2, l2.splineGeo)

/-- Whether a `createSplineIfNeeded` call would rebuild the spline: the
guard of the rebuild branch. -/
def AcDbLeader.wouldRebuild (l : AcDbLeader) : Prop :=
  l.isSplined ∧ 2 ≤ l.vertices.length ∧ (l.splineGeo.isNone ∨ l.updated)

instance (l : AcDbLeader) : Decidable l.wouldRebuild := by
  unfold AcDbLeader.wouldRebuild; infer_instance

/-! ## Raster image (`AcDbRasterImage`) -/

/-- The state of `AcDbRasterImage`; the clip-boundary-type enum member is
kept as its numeric value and the optional image blob as a flag. -/
structure AcDbRasterImage where
  brightness : ℝ
  contrast : ℝ
  fade : ℝ
  width : ℝ
  height : ℝ
  position : AcGePoint3d
  rotation : ℝ
  scale : AcGePoint2d
  clipBoundaryType : Nat
  clipBoundary : List AcGePoint2d
  imageDefId : String
  isClipped : Bool
  isShownClipped : Bool
  isImageShown : Bool
  isImageTransparent : Bool
  hasImage : Bool

/-- Rotate the x and y coordinates of a 3d point about a 2d pivot, keeping
z, as the source loop does through its scratch 2d points. -/
noncomputable def rotateXYAround (p : AcGePoint3d) (pivot : AcGePoint2d) (angle : ℝ) :
    AcGePoint3d :=
  let r := rotateAround ⟨p.x, p.y⟩ pivot angle
  ⟨r.x, r.y, p.z⟩

/-- `AcDbRasterImage.boundaryPath`, embedded from the source.  Clipped with
more than three boundary points: the boundary box of the clip vertices gives
a translation putting its minimum corner (scaled to world size) on the
insertion point, and every vertex is mapped through scale plus translation.
Otherwise: the four rectangle corners are synthesized; when the rotation is
positive, the vertices at indices 1..3 are rotated about a pivot copied from
vertex 1 before the loop runs; finally the first point is pushed again. -/
noncomputable def AcDbRasterImage.boundaryPath (img : AcDbRasterImage) :
    List AcGePoint3d :=
  if img.isClipped ∧ 3 < img.clipBoundary.length then
    match img.clipBoundary with
    | [] => []
    | q :: qs =>
      let wcsWidth := img.width
      let wcsHeight := img.height
      let ocsBox := box2FromPoints q qs
      let tx := img.position.x - ocsBox.boxMin.x * wcsWidth
      let ty := img.position.y - ocsBox.boxMin.y * wcsHeight
      (q :: qs).map fun p =>
        ⟨p.x * wcsWidth + tx, p.y * wcsHeight + ty, img.position.z⟩
  else
    let p0 := img.position
    let p1 : AcGePoint3d :=
      ⟨img.position.x + img.width, img.position.y, img.position.z⟩
    let p2 : AcGePoint3d :=
      ⟨img.position.x + img.width, img.position.y + img.height, img.position.z⟩
    let p3 : AcGePoint3d :=
      ⟨img.position.x, img.position.y + img.height, img.position.z⟩
    if 0 < img.rotation then
      let pivot : AcGePoint2d := ⟨p1.x, p1.y⟩
      [p0, rotateXYAround p1 pivot img.rotation,
       rotateXYAround p2 pivot img.rotation,
       rotateXYAround p3 pivot img.rotation, p0]
    else
      [p0, p1, p2, p3, p0]

/-- The boundary path exactly as the claim words it: clipped with at least
four points maps every clip vertex through scale and translation, where the
translation is computed from the minimum corner of the boundary box; in the
unclipped case the rectangle corners are synthesized and, whenever a NONZERO
rotation is set, vertices 1..3 are rotated about vertex 1, and the loop is
closed by repeating the first point. -/
noncomputable def boundaryPathClaimed (img : AcDbRasterImage) : List AcGePoint3d :=
  if img.isClipped ∧ 4 ≤ img.clipBoundary.length then
    let minX := match img.clipBoundary.map AcGePoint2d.x with
      | [] => 0
      | v :: vs => vs.foldr min v
    let minY := match img.clipBoundary.map AcGePoint2d.y with
      | [] => 0
      | v :: vs => vs.foldr min v
    let tx := img.position.x - minX * img.width
    let ty := img.position.y - minY * img.height
    img.clipBoundary.map fun p =>
      ⟨p.x * img.width + tx, p.y * img.height + ty, img.position.z⟩
  else
    let c0 := img.position
    let c1 : AcGePoint3d :=
      ⟨img.position.x + img.width, img.position.y, img.position.z⟩
    let c2 : AcGePoint3d :=
      ⟨img.position.x + img.width, img.position.y + img.height, img.position.z⟩
    let c3 : AcGePoint3d :=
      ⟨img.position.x, img.position.y + img.height, img.position.z⟩
    let corners :=
      if img.rotation ≠ 0 then
        c0 :: ([c1, c2, c3].map fun p => rotateXYAround p ⟨c1.x, c1.y⟩ img.rotation)
      else
        [c0, c1, c2, c3]
    corners ++ [c0]

/-- The boundary path as the AMENDED claim words it: identical to the
claimed description except that the unclipped rectangle is rotated only for
a strictly positive rotation (the source tests `rotation > 0`, so a negative
rotation leaves the rectangle unrotated). -/
noncomputable def boundaryPathAmended (img : AcDbRasterImage) : List AcGePoint3d :=
  if img.isClipped ∧ 4 ≤ img.clipBoundary.length then
    let minX := match img.clipBoundary.map AcGePoint2d.x with
      | [] => 0
      | v :: vs => vs.foldr min v
    let minY := match img.clipBoundary.map AcGePoint2d.y with
      | [] => 0
      | v :: vs => vs.foldr min v
    let tx := img.position.x - minX * img.width
    let ty := img.position.y - minY * img.height
    img.clipBoundary.map fun p =>
      ⟨p.x * img.width + tx, p.y * img.height + ty, img.position.z⟩
  else
    let c0 := img.position
    let c1 : AcGePoint3d :=
      ⟨img.position.x + img.width, img.position.y, img.position.z⟩
    let c2 : AcGePoint3d :=
      ⟨img.position.x + img.width, img.position.y + img.height, img.position.z⟩
    let c3 : AcGePoint3d :=
      ⟨img.position.x, img.position.y + img.height, img.position.z⟩
    let corners :=
      if 0 < img.rotation then
        c0 :: ([c1, c2, c3].map fun p => rotateXYAround p ⟨c1.x, c1.y⟩ img.rotation)
      else
        [c0, c1, c2, c3]
    corners ++ [c0]

/-! ## Multiline text (`AcDbMText`) -/

/-- The state of `AcDbMText`; enum members are kept as numeric values. -/
structure AcDbMText where
  contents : String
  height : ℝ
  width : ℝ
  lineSpacingFactor : ℝ
  lineSpacingStyle : ℝ
  backgroundFill : Bool
  backgroundFillColor : Nat
  backgroundFillTransparency : ℝ
  backgroundScaleFactor : ℝ
  rotation : ℝ
  styleName : String
  location : AcGePoint3d
  attachmentPoint : Nat
  direction : AcGePoint3d
  drawingDirection : Nat

/-- The `backgroundFillColor` setter: a plain store. -/
def AcDbMText.setBackgroundFillColor (m : AcDbMText) (value : Nat) : AcDbMText :=
  { m with backgroundFillColor := value }

/-- The `backgroundFill` setter: stores the flag and, unconditionally,
resets the background fill color to `0xc8c8c8`. -/
def AcDbMText.setBackgroundFill (m : AcDbMText) (value : Bool) : AcDbMText :=
  { m with backgroundFill := value, backgroundFillColor := 0xc8c8c8 }

/-! ## Colors, layers, the drawing database and style resolution -/

/-- Modelled from the spec: the common-package tri-state color
(`AcCmColor`), observed through its ByLayer and ByBlock flags and its
optional concrete RGB value; a freshly constructed color is ByLayer with no
concrete RGB. -/
structure AcCmColor where
  isByLayer : Bool
  isByBlock : Bool
  rgbValue : Option Nat

/-- Modelled from the spec: the default `AcCmColor`, the ByLayer
indirection. -/
def AcCmColor.new : AcCmColor :=
  { isByLayer := true, isByBlock := false, rgbValue := none }

/-- Modelled from the spec: the common-package transparency value
(0 to 1 tri-state, default opaque); `clone` copies the value. -/
structure AcCmTransparency where
  alpha : ℝ

/-- `AcCmTransparency.clone` produces an equal value. -/
def AcCmTransparency.clone (t : AcCmTransparency) : AcCmTransparency := ⟨t.alpha⟩

/-- Modelled from the spec: the `ByLayer` linetype-name constant. -/
def ByLayerName : String := "ByLayer"

/-- Modelled from the spec: the `ByBlock` linetype-name constant. -/
def ByBlockName : String := "ByBlock"

/-- Modelled from the spec: the fixed fallback linetype name
`DEFAULT_LINE_TYPE`. -/
def DefaultLineTypeName : String := "Continuous"

/-- A layer-table record as the entity layer consumes it: a name, a color
and a linetype name (the empty string standing for an unset, falsy value). -/
structure AcDbLayerTableRecord where
  name : String
  color : AcCmColor
  linetype : String

/-- The payload of a linetype-table record as `lineStyle` spreads it. -/
structure AcGiLineTypePattern where
  name : String
  standardFlag : Nat
  description : String
  totalPatternLength : ℝ

/-- A linetype-table record. -/
structure AcDbLinetypeTableRecord where
  name : String
  linetype : AcGiLineTypePattern

/-- The drawing database as the entity base class consumes it: the current
default entity color and the layer and linetype tables, addressed by name. -/
structure AcDbDatabase where
  cecolor : AcCmColor
  layers : List AcDbLayerTableRecord
  linetypes : List AcDbLinetypeTableRecord

/-- `layerTable.getAt`: find a layer record by name. -/
def AcDbDatabase.layerGetAt (db : AcDbDatabase) (name : String) :
    Option AcDbLayerTableRecord :=
  db.layers.find? fun l => l.name = name

/-- `linetypeTable.getAt`: find a linetype record by name. -/
def AcDbDatabase.linetypeGetAt (db : AcDbDatabase) (name : String) :
    Option AcDbLinetypeTableRecord :=
  db.linetypes.find? fun l => l.name = name

/-- The style state every `AcDbEntity` owns, with its constructor
defaults reflected in `AcDbEntityState.new`. -/
structure AcDbEntityState where
  objectId : String
  layer : String
  color : AcCmColor
  lineType : String
  lineWeight : Int
  linetypeScale : ℝ
  visibility : Bool
  transparency : AcCmTransparency

/-- The `AcDbEntity` field defaults: layer `0`, ByLayer color, ByLayer
linetype, ByLayer lineweight (kept as its numeric value -1), linetype scale
-1, visible, opaque. -/
def AcDbEntityState.new : AcDbEntityState :=
  { objectId := ""
    layer := "0"
    color := AcCmColor.new
    lineType := ByLayerName
    lineWeight := -1
    linetypeScale := -1
    visibility := true
    transparency := ⟨1⟩ }

/-- `AcDbEntity.getLayerColor`: look the entity layer up; a missing layer is
logged and yields null. -/
def AcDbEntityState.getLayerColor (e : AcDbEntityState) (db : AcDbDatabase) :
    Option AcCmColor :=
  match db.layerGetAt e.layer with
  | none => none
  | some layer => some layer.color

/-- `AcDbEntity.rgbColor`: start from the database default color; under
ByLayer adopt the layer color when it exists and has a concrete RGB; under
ByBlock keep the default; an explicit color with a concrete RGB wins;
finally fall back to white when the chosen color has no concrete RGB. -/
def AcDbEntityState.rgbColor (e : AcDbEntityState) (db : AcDbDatabase) : Nat :=
  let color0 := db.cecolor
  let color :=
    if e.color.isByLayer then
      match e.getLayerColor db with
      | some layerColor => if layerColor.rgbValue.isSome then layerColor else color0
      | none => color0
    else if e.color.isByBlock then
      color0
    else if e.color.rgbValue.isSome then
      e.color
    else
      color0
  match color.rgbValue with
  | some rgb => rgb
  | none => 0xffffff

/-- The pair `getLineType` resolves: a style kind and a linetype name. -/
structure AcGiLineTypeRef where
  type : String
  name : String

/-- `AcDbEntity.getLineType`: ByLayer consults the layer table and adopts
the layer linetype when the layer exists and its linetype is set, otherwise
falls through to the user-specified default; ByBlock yields the fixed
fallback name; any other stored name is returned as user specified. -/
def AcDbEntityState.getLineType (e : AcDbEntityState) (db : AcDbDatabase) :
    AcGiLineTypeRef :=
  if e.lineType = ByLayerName then
    match db.layerGetAt e.layer with
    | some layer =>
      if layer.linetype ≠ "" then
        { type := "ByLayer", name := layer.linetype }
      else
        { type := "UserSpecified", name := DefaultLineTypeName }
    | none => { type := "UserSpecified", name := DefaultLineTypeName }
  else if e.lineType = ByBlockName then
    { type := "ByBlock", name := DefaultLineTypeName }
  else
    { type := "UserSpecified", name := e.lineType }

/-- The record `AcDbEntity.lineStyle` returns. -/
structure AcGiLineStyle where
  type : String
  name : String
  standardFlag : Nat
  description : String
  totalPatternLength : ℝ

/-- `AcDbEntity.lineStyle`: resolve the linetype reference, then spread the
linetype-table record over it, or return a minimal placeholder when the
name is absent from the table. -/
def AcDbEntityState.lineStyle (e : AcDbEntityState) (db : AcDbDatabase) :
    AcGiLineStyle :=
  let ref := e.getLineType db
  match db.linetypeGetAt ref.name with
  | some rec =>
    { type := ref.type
      name := rec.linetype.name
      standardFlag := rec.linetype.standardFlag
      description := rec.linetype.description
      totalPatternLength := rec.linetype.totalPatternLength }
  | none =>
    { type := ref.type
      name := ref.name
      standardFlag := 0
      description := ""
      totalPatternLength := 0 }

/-- The entity `lineType` setter: an empty (falsy) string is replaced by
the ByLayer constant. -/
def AcDbEntityState.setLineType (e : AcDbEntityState) (value : String) :
    AcDbEntityState :=
  { e with lineType := if value = "" then ByLayerName else value }

/-- The amended resolution of the default entity color the code implements:
the layer color when the entity layer resolves to a record with a concrete
RGB, otherwise the database default color, otherwise white. -/
def defaultRgbColorAmended (db : AcDbDatabase) : Nat :=
  match db.layerGetAt "0" with
  | some layer =>
    match layer.color.rgbValue with
    | some c => c
    | none => match db.cecolor.rgbValue with
              | some c => c
              | none => 0xffffff
  | none => match db.cecolor.rgbValue with
            | some c => c
            | none => 0xffffff

/-- The amended resolution of the default entity line-style kind: ByLayer
exactly when the entity layer exists and names a linetype, otherwise the
user-specified fallback. -/
def defaultLineStyleTypeAmended (db : AcDbDatabase) : String :=
  match db.layerGetAt "0" with
  | some layer => if layer.linetype ≠ "" then "ByLayer" else "UserSpecified"
  | none => "UserSpecified"

/-! ## Further concrete entity states used by property reflection -/

/-- The state of `AcDbPoint`: its position. -/
structure AcDbPoint where
  geo : AcGePoint3d

/-- The state of `AcDbText`; alignment enum members are kept as numeric
values. -/
structure AcDbText where
  textString : String
  thickness : ℝ
  height : ℝ
  position : AcGePoint3d
  rotation : ℝ
  oblique : ℝ
  horizontalMode : Nat
  verticalMode : Nat
  styleName : String
  widthFactor : ℝ

/-- The state of `AcDbCircle` as its accessors expose it: center, radius
and normal of the underlying circular arc. -/
structure AcDbCircle where
  center : AcGePoint3d
  radius : ℝ
  normal : AcGePoint3d

/-- The state of `AcDbArc` as its accessors expose it. -/
structure AcDbArc where
  center : AcGePoint3d
  radius : ℝ
  startAngle : ℝ
  endAngle : ℝ
  normal : AcGePoint3d

/-- The state of `AcDbEllipse` as its accessors expose it. -/
structure AcDbEllipse where
  center : AcGePoint3d
  majorAxisRadius : ℝ
  minorAxisRadius : ℝ
  startAngle : ℝ
  endAngle : ℝ
  normal : AcGePoint3d

/-! ## Property reflection -/

/-- The values runtime property accessors read and write. -/
inductive AcValue where
  | num (v : ℝ)
  | str (s : String)
  | colorVal (c : AcCmColor)
  | lineWeightVal (w : Int)
  | transparencyVal (t : AcCmTransparency)
  | enumVal (n : Nat)

/-- The kind tag of a runtime value. -/
def valueKind : AcValue → String
  | .num _ => "float"
  | .str _ => "string"
  | .colorVal _ => "color"
  | .lineWeightVal _ => "lineweight"
  | .transparencyVal _ => "transparency"
  | .enumVal _ => "enum"

/-- The kind of value a property of the given declared type carries. -/
def ptypeValueKind (ptype : String) : String :=
  if ptype = "linetype" then "string"
  else if ptype = "int" then "int"
  else ptype

/-- A runtime property descriptor over an entity state `σ`: its name,
declared type, editable flag, the accessor read (always from the live
state), and the typed setter the entity exposes for the same datum. -/
structure AcDbProp (σ : Type) where
  name : String
  ptype : String
  editable : Bool
  get : σ → AcValue
  typedSet : AcValue → σ → σ

/-- A float property whose accessor reads `g` and whose typed setter is a
plain store. -/
def floatProp {σ : Type} (name : String) (g : σ → ℝ) (st : ℝ → σ → σ) :
    AcDbProp σ :=
  { name := name
    ptype := "float"
    editable := true
    get := fun s => .num (g s)
    typedSet := fun v s => match v with | .num x => st x s | _ => s }

/-- A string property whose accessor reads `g` and whose typed setter is a
plain store. -/
def strProp {σ : Type} (name : String) (g : σ → String) (st : String → σ → σ) :
    AcDbProp σ :=
  { name := name
    ptype := "string"
    editable := true
    get := fun s => .str (g s)
    typedSet := fun v s => match v with | .str x => st x s | _ => s }

/-- An enum property whose accessor reads `g` and whose typed setter is a
plain store. -/
def enumProp {σ : Type} (name : String) (g : σ → Nat) (st : Nat → σ → σ) :
    AcDbProp σ :=
  { name := name
    ptype := "enum"
    editable := true
    get := fun s => .enumVal (g s)
    typedSet := fun v s => match v with | .enumVal x => st x s | _ => s }

/-- The `general` property group of `AcDbEntity.getGeneralProperties`,
over any state carrying the base entity state through the given lens:
handle (read only), color, layer, linetype, linetypeScale, lineWeight and
transparency, each reading the live field; the typed setters are those of
the base class, in particular the linetype setter replaces an empty string
by the ByLayer constant and the transparency setter stores a clone. -/
def generalProps {σ : Type} (getB : σ → AcDbEntityState)
    (setB : σ → AcDbEntityState → σ) : List (AcDbProp σ) :=
  [ { name := "handle"
      ptype := "int"
      editable := false
      get := fun s => .str (getB s).objectId
      typedSet := fun _ s => s }
  , { name := "color"
      ptype := "color"
      editable := true
      get := fun s => .colorVal (getB s).color
      typedSet := fun v s => match v with
        | .colorVal c => setB s { getB s with color := c }
        | _ => s }
  , { name := "layer"
      ptype := "string"
      editable := true
      get := fun s => .str (getB s).layer
      typedSet := fun v s => match v with
        | .str x => setB s { getB s with layer := x }
        | _ => s }
  , { name := "linetype"
      ptype := "linetype"
      editable := true
      get := fun s => .str (getB s).lineType
      typedSet := fun v s => match v with
        | .str x => setB s ((getB s).setLineType x)
        | _ => s }
  , { name := "linetypeScale"
      ptype := "float"
      editable := true
      get := fun s => .num (getB s).linetypeScale
      typedSet := fun v s => match v with
        | .num x => setB s { getB s with linetypeScale := x }
        | _ => s }
  , { name := "lineWeight"
      ptype := "lineweight"
      editable := true
      get := fun s => .lineWeightVal (getB s).lineWeight
      typedSet := fun v s => match v with
        | .lineWeightVal w => setB s { getB s with lineWeight := w }
        | _ => s }
  , { name := "transparency"
      ptype := "transparency"
      editable := true
      get := fun s => .transparencyVal (getB s).transparency
      typedSet := fun v s => match v with
        | .transparencyVal t => setB s { getB s with transparency := t.clone }
        | _ => s } ]

/-- The `general` group over the bare base state, as inherited unchanged by
every concrete entity that does not override `properties`. -/
def entityBaseProps : List (AcDbProp AcDbEntityState) :=
  generalProps (fun s => s) (fun _ b => b)

/-- The value the round trip is expected to read back: the set value
itself, except that the linetype typed setter normalizes the empty string
to the ByLayer constant. -/
def rtExpected (ptype : String) (v : AcValue) : AcValue :=
  if ptype = "linetype" then
    match v with
    | .str s => .str (if s = "" then ByLayerName else s)
    | w => w
  else v

/-- The round-trip property of one descriptor: for every state and every
value of the declared kind, writing through the typed setter and reading
through the accessor yields the expected value. -/
def RoundTripOK {σ : Type} (d : AcDbProp σ) : Prop :=
  ∀ (s : σ) (v : AcValue), valueKind v = ptypeValueKind d.ptype →
    d.get (d.typedSet v s) = rtExpected d.ptype v

/-- `AcGePoint3d.setX`, the coordinate store of the geometry engine. -/
def AcGePoint3d.setX (p : AcGePoint3d) (v : ℝ) : AcGePoint3d := { p with x := v }

/-- `AcGePoint3d.setY`, the coordinate store of the geometry engine. -/
def AcGePoint3d.setY (p : AcGePoint3d) (v : ℝ) : AcGePoint3d := { p with y := v }

/-- `AcGePoint3d.setZ`, the coordinate store of the geometry engine. -/
def AcGePoint3d.setZ (p : AcGePoint3d) (v : ℝ) : AcGePoint3d := { p with z := v }

/-- Three float properties exposing the coordinates of one live point
field, as the geometry groups do for positions, centers, directions and
normals. -/
def pointCoordProps {σ : Type} (nx ny nz : String) (g : σ → AcGePoint3d)
    (st : AcGePoint3d → σ → σ) : List (AcDbProp σ) :=
  [ floatProp nx (fun s => (g s).x) (fun v s => st ((g s).setX v) s)
  , floatProp ny (fun s => (g s).y) (fun v s => st ((g s).setY v) s)
  , floatProp nz (fun s => (g s).z) (fun v s => st ((g s).setZ v) s) ]

/-- The linetype descriptor of the general group, as every entity inherits
it: the accessor reads the live `lineType` field and the typed setter is
the base-class linetype setter. -/
def entityLinetypeProp : AcDbProp AcDbEntityState :=
  { name := "linetype"
    ptype := "linetype"
    editable := true
    get := fun s => .str s.lineType
    typedSet := fun v s => match v with
      | .str x => s.setLineType x
      | _ => s }

/-- The `startX` descriptor of the line geometry group. -/
def linePropStartX : AcDbProp (AcDbEntityState × AcDbLine) :=
  floatProp "startX" (fun s => s.2.geo.startPoint.x)
    (fun v s => (s.1, { s.2 with geo := { s.2.geo with
      startPoint := s.2.geo.startPoint.setX v } }))

/-- The properties tree of `AcDbLine` over the full object (inherited base
state paired with the own state): the general group followed by the
geometry group with editable start and end coordinates. -/
def linePropsList : List (AcDbProp (AcDbEntityState × AcDbLine)) :=
  generalProps Prod.fst (fun s b => (b, s.2)) ++
  linePropStartX ::
  floatProp "startY" (fun s => s.2.geo.startPoint.y)
    (fun v s => (s.1, { s.2 with geo := { s.2.geo with
      startPoint := s.2.geo.startPoint.setY v } })) ::
  floatProp "startZ" (fun s => s.2.geo.startPoint.z)
    (fun v s => (s.1, { s.2 with geo := { s.2.geo with
      startPoint := s.2.geo.startPoint.setZ v } })) ::
  pointCoordProps "endX" "endY" "endZ" (fun s => s.2.geo.endPoint)
    (fun p s => (s.1, { s.2 with geo := { s.2.geo with endPoint := p } }))

/-- The properties tree of `AcDbPoint`: the general group followed by the
geometry group with the editable position coordinates. -/
def pointPropsList : List (AcDbProp (AcDbEntityState × AcDbPoint)) :=
  generalProps Prod.fst (fun s b => (b, s.2)) ++
  pointCoordProps "positionX" "positionY" "positionZ" (fun s => s.2.geo)
    (fun p s => (s.1, { s.2 with geo := p }))

/-- The properties tree of `AcDbText`: the general group, the text group
(contents, style name, height, rotation, width factor, oblique) and the
geometry group with the position coordinates. -/
def textPropsList : List (AcDbProp (AcDbEntityState × AcDbText)) :=
  generalProps Prod.fst (fun s b => (b, s.2)) ++
  strProp "contents" (fun s => s.2.textString)
    (fun v s => (s.1, { s.2 with textString := v })) ::
  strProp "styleName" (fun s => s.2.styleName)
    (fun v s => (s.1, { s.2 with styleName := v })) ::
  floatProp "textHeight" (fun s => s.2.height)
    (fun v s => (s.1, { s.2 with height := v })) ::
  floatProp "rotation" (fun s => s.2.rotation)
    (fun v s => (s.1, { s.2 with rotation := v })) ::
  floatProp "widthFactor" (fun s => s.2.widthFactor)
    (fun v s => (s.1, { s.2 with widthFactor := v })) ::
  floatProp "oblique" (fun s => s.2.oblique)
    (fun v s => (s.1, { s.2 with oblique := v })) ::
  pointCoordProps "positionX" "positionY" "positionZ" (fun s => s.2.position)
    (fun p s => (s.1, { s.2 with position := p }))

/-- The properties tree of `AcDbCircle`: the general group and the geometry
group (center, radius, normal). -/
def circlePropsList : List (AcDbProp (AcDbEntityState × AcDbCircle)) :=
  generalProps Prod.fst (fun s b => (b, s.2)) ++
  pointCoordProps "centerX" "centerY" "centerZ" (fun s => s.2.center)
    (fun p s => (s.1, { s.2 with center := p })) ++
  floatProp "radius" (fun s => s.2.radius)
    (fun v s => (s.1, { s.2 with radius := v })) ::
  pointCoordProps "normalX" "normalY" "normalZ" (fun s => s.2.normal)
    (fun p s => (s.1, { s.2 with normal := p }))

/-- The properties tree of `AcDbArc`: the general group and the geometry
group (center, radius, start and end angle, normal). -/
def arcPropsList : List (AcDbProp (AcDbEntityState × AcDbArc)) :=
  generalProps Prod.fst (fun s b => (b, s.2)) ++
  pointCoordProps "centerX" "centerY" "centerZ" (fun s => s.2.center)
    (fun p s => (s.1, { s.2 with center := p })) ++
  floatProp "radius" (fun s => s.2.radius)
    (fun v s => (s.1, { s.2 with radius := v })) ::
  floatProp "startAngle" (fun s => s.2.startAngle)
    (fun v s => (s.1, { s.2 with startAngle := v })) ::
  floatProp "endAngle" (fun s => s.2.endAngle)
    (fun v s => (s.1, { s.2 with endAngle := v })) ::
  pointCoordProps "normalX" "normalY" "normalZ" (fun s => s.2.normal)
    (fun p s => (s.1, { s.2 with normal := p }))

/-- The properties tree of `AcDbEllipse`: the general group and the
geometry group (center, both axis radii, start and end angle, normal);
the typed setter of each radius is the corresponding ellipse setter. -/
def ellipsePropsList : List (AcDbProp (AcDbEntityState × AcDbEllipse)) :=
  generalProps Prod.fst (fun s b => (b, s.2)) ++
  pointCoordProps "centerX" "centerY" "centerZ" (fun s => s.2.center)
    (fun p s => (s.1, { s.2 with center := p })) ++
  floatProp "majorAxisRadius" (fun s => s.2.majorAxisRadius)
    (fun v s => (s.1, { s.2 with majorAxisRadius := v })) ::
  floatProp "minorAxisRadius" (fun s => s.2.minorAxisRadius)
    (fun v s => (s.1, { s.2 with minorAxisRadius := v })) ::
  floatProp "startAngle" (fun s => s.2.startAngle)
    (fun v s => (s.1, { s.2 with startAngle := v })) ::
  floatProp "endAngle" (fun s => s.2.endAngle)
    (fun v s => (s.1, { s.2 with endAngle := v })) ::
  pointCoordProps "normalX" "normalY" "normalZ" (fun s => s.2.normal)
    (fun p s => (s.1, { s.2 with normal := p }))

/-- The properties tree of `AcDbRay`: the general group and the geometry
group (base point and unit direction coordinates). -/
def rayPropsList : List (AcDbProp (AcDbEntityState × AcDbRay)) :=
  generalProps Prod.fst (fun s b => (b, s.2)) ++
  pointCoordProps "basePointX" "basePointY" "basePointZ" (fun s => s.2.basePoint)
    (fun p s => (s.1, { s.2 with basePoint := p })) ++
  pointCoordProps "unitDirX" "unitDirY" "unitDirZ" (fun s => s.2.unitDir)
    (fun p s => (s.1, { s.2 with unitDir := p }))

/-- The properties tree of `AcDbXline`: the general group and the geometry
group (base point and unit direction coordinates). -/
def xlinePropsList : List (AcDbProp (AcDbEntityState × AcDbXline)) :=
  generalProps Prod.fst (fun s b => (b, s.2)) ++
  pointCoordProps "basePointX" "basePointY" "basePointZ" (fun s => s.2.basePoint)
    (fun p s => (s.1, { s.2 with basePoint := p })) ++
  pointCoordProps "unitDirX" "unitDirY" "unitDirZ" (fun s => s.2.unitDir)
    (fun p s => (s.1, { s.2 with unitDir := p }))

/-- The properties tree of `AcDbMText`: the general group, the text group
(contents, style name, attachment point, drawing direction, height,
rotation, line spacing factor, defined width, direction coordinates) and
the geometry group (location coordinates). -/
def mtextPropsList : List (AcDbProp (AcDbEntityState × AcDbMText)) :=
  generalProps Prod.fst (fun s b => (b, s.2)) ++
  strProp "contents" (fun s => s.2.contents)
    (fun v s => (s.1, { s.2 with contents := v })) ::
  strProp "styleName" (fun s => s.2.styleName)
    (fun v s => (s.1, { s.2 with styleName := v })) ::
  enumProp "attachmentPoint" (fun s => s.2.attachmentPoint)
    (fun v s => (s.1, { s.2 with attachmentPoint := v })) ::
  enumProp "drawingDirection" (fun s => s.2.drawingDirection)
    (fun v s => (s.1, { s.2 with drawingDirection := v })) ::
  floatProp "textHeight" (fun s => s.2.height)
    (fun v s => (s.1, { s.2 with height := v })) ::
  floatProp "rotation" (fun s => s.2.rotation)
    (fun v s => (s.1, { s.2 with rotation := v })) ::
  floatProp "lineSpacingFactor" (fun s => s.2.lineSpacingFactor)
    (fun v s => (s.1, { s.2 with lineSpacingFactor := v })) ::
  floatProp "definedWidth" (fun s => s.2.width)
    (fun v s => (s.1, { s.2 with width := v })) ::
  pointCoordProps "directionX" "directionY" "directionZ" (fun s => s.2.direction)
    (fun p s => (s.1, { s.2 with direction := p })) ++
  pointCoordProps "locationX" "locationY" "locationZ" (fun s => s.2.location)
    (fun p s => (s.1, { s.2 with location := p }))

/-! ## Helper lemmas -/

/-- Folding `min` over a list commutes with pushing one more argument into
the seed. -/
theorem foldr_min_seed (l : List ℝ) (a c : ℝ) :
    l.foldr min (min a c) = min c (l.foldr min a) := by
  induction l with
  | nil => exact min_comm a c
  | cons d t ih =>
    simp only [List.foldr_cons, ih]
    rw [min_left_comm]

/-- The minimum corner of the 2d bounding box is the `min`-fold of the
coordinates. -/
theorem box2FromPoints_min (qs : List AcGePoint2d) (q : AcGePoint2d) :
    (box2FromPoints q qs).boxMin.x = (qs.map AcGePoint2d.x).foldr min q.x ∧
    (box2FromPoints q qs).boxMin.y = (qs.map AcGePoint2d.y).foldr min q.y := by
  suffices h : ∀ (t : List AcGePoint2d) (b : AcGeBox2d),
      (t.foldl (fun b p => (⟨⟨min b.boxMin.x p.x, min b.boxMin.y p.y⟩,
        ⟨max b.boxMax.x p.x, max b.boxMax.y p.y⟩⟩ : AcGeBox2d)) b).boxMin.x =
        (t.map AcGePoint2d.x).foldr min b.boxMin.x ∧
      (t.foldl (fun b p => (⟨⟨min b.boxMin.x p.x, min b.boxMin.y p.y⟩,
        ⟨max b.boxMax.x p.x, max b.boxMax.y p.y⟩⟩ : AcGeBox2d)) b).boxMin.y =
        (t.map AcGePoint2d.y).foldr min b.boxMin.y by
    exact h qs ⟨q, q⟩
  intro t
  induction t with
  | nil => intro b; exact ⟨rfl, rfl⟩
  | cons p t ih =>
    intro b
    refine ⟨?_, ?_⟩
    · simp only [List.foldl_cons, List.map_cons, List.foldr_cons]
      rw [(ih _).1]
      exact foldr_min_seed _ _ _
    · simp only [List.foldl_cons, List.map_cons, List.foldr_cons]
      rw [(ih _).2]
      exact foldr_min_seed _ _ _

/-! ## Example entities -/

/-- A line from the origin to (10,0,0). -/
def exLine : AcDbLine := ⟨⟨⟨0, 0, 0⟩, ⟨10, 0, 0⟩⟩⟩

/-- C9: for the line from (0,0,0) to (10,0,0), the midpoint is (5,0,0), the
geometric extents span exactly the two endpoints, and the grip points are
the midpoint, the start point and the end point, in that order. -/
theorem c9_line_concrete :
    exLine.midPoint = ⟨5, 0, 0⟩ ∧
    exLine.geometricExtents = ⟨⟨0, 0, 0⟩, ⟨10, 0, 0⟩⟩ ∧
    exLine.subGetGripPoints = [⟨5, 0, 0⟩, ⟨0, 0, 0⟩, ⟨10, 0, 0⟩] := by
  refine ⟨?_, ?_, ?_⟩ <;>
    simp [exLine, AcDbLine.midPoint, AcDbLine.geometricExtents,
      AcDbLine.subGetGripPoints, AcDbLine.startPoint, AcDbLine.endPoint,
      AcGeLine3d.midPoint, AcGeLine3d.box, boxSpanned, AcGePoint3d.compMin,
      AcGePoint3d.compMax, min_def, max_def] <;>
    norm_num

/-- C10: the `backgroundFill` setter of the mtext entity stores the flag,
unconditionally resets the background fill color to 0xc8c8c8 (overwriting
any color previously stored through the `backgroundFillColor` setter,
whether the flag is true or false), and changes no other field. -/
theorem c10_mtext_backgroundFill_frame (m : AcDbMText) (b : Bool) (c : Nat) :
    (m.setBackgroundFill b).backgroundFill = b ∧
    (m.setBackgroundFill b).backgroundFillColor = 0xc8c8c8 ∧
    ((m.setBackgroundFillColor c).setBackgroundFill b).backgroundFillColor = 0xc8c8c8 ∧
    (m.setBackgroundFill b).contents = m.contents ∧
    (m.setBackgroundFill b).height = m.height ∧
    (m.setBackgroundFill b).width = m.width ∧
    (m.setBackgroundFill b).lineSpacingFactor = m.lineSpacingFactor ∧
    (m.setBackgroundFill b).lineSpacingStyle = m.lineSpacingStyle ∧
    (m.setBackgroundFill b).backgroundFillTransparency = m.backgroundFillTransparency ∧
    (m.setBackgroundFill b).backgroundScaleFactor = m.backgroundScaleFactor ∧
    (m.setBackgroundFill b).rotation = m.rotation ∧
    (m.setBackgroundFill b).styleName = m.styleName ∧
    (m.setBackgroundFill b).location = m.location ∧
    (m.setBackgroundFill b).attachmentPoint = m.attachmentPoint ∧
    (m.setBackgroundFill b).direction = m.direction ∧
    (m.setBackgroundFill b).drawingDirection = m.drawingDirection := by
  repeat first
  | exact ⟨rfl, by repeat first | exact rfl | exact ⟨rfl, rfl⟩ | constructor⟩
  | constructor
  | rfl
/-- C7: the ray draw requests the segment from the base point to the base
point plus one million times the unit direction; the construction line draw
requests the symmetric segment; and the geometric extents of both are the
box spanned by the base point plus and minus only ten times the unit
direction — the two multipliers are intentionally different. -/
theorem c7_ray_xline_draw_extents (r : AcDbRay) (x : AcDbXline) :
    r.drawPoints = [r.basePoint,
      ⟨r.basePoint.x + 1000000 * r.unitDir.x,
       r.basePoint.y + 1000000 * r.unitDir.y,
       r.basePoint.z + 1000000 * r.unitDir.z⟩] ∧
    x.drawPoints = [⟨x.basePoint.x - 1000000 * x.unitDir.x,
       x.basePoint.y - 1000000 * x.unitDir.y,
       x.basePoint.z - 1000000 * x.unitDir.z⟩,
      ⟨x.basePoint.x + 1000000 * x.unitDir.x,
       x.basePoint.y + 1000000 * x.unitDir.y,
       x.basePoint.z + 1000000 * x.unitDir.z⟩] ∧
    r.geometricExtents = some (boxSpanned
      ⟨r.basePoint.x + 10 * r.unitDir.x,
       r.basePoint.y + 10 * r.unitDir.y,
       r.basePoint.z + 10 * r.unitDir.z⟩
      ⟨r.basePoint.x - 10 * r.unitDir.x,
       r.basePoint.y - 10 * r.unitDir.y,
       r.basePoint.z - 10 * r.unitDir.z⟩) ∧
    x.geometricExtents = some (boxSpanned
      ⟨x.basePoint.x + 10 * x.unitDir.x,
       x.basePoint.y + 10 * x.unitDir.y,
       x.basePoint.z + 10 * x.unitDir.z⟩
      ⟨x.basePoint.x - 10 * x.unitDir.x,
       x.basePoint.y - 10 * x.unitDir.y,
       x.basePoint.z - 10 * x.unitDir.z⟩) := by
  refine ⟨?_, ?_, ?_, ?_⟩ <;>
    simp [AcDbRay.drawPoints, AcDbXline.drawPoints, AcDbRay.geometricExtents,
      AcDbXline.geometricExtents, AcGePoint3d.add, AcGePoint3d.multiplyScalar,
      expandByPoint, boxSpanned, AcGePoint3d.compMin, AcGePoint3d.compMax,
      mul_comm, sub_eq_add_neg, neg_mul, mul_neg] <;>
    and_intros <;> ring_nf

/-- The number of snap points each object-snap mode appends for a line:
two for the end-point mode, none for an unknown mode, one otherwise. -/
def osnapModeCount : AcDbOsnapMode → Nat
  | .endPoint => 2
  | .other => 0
  | _ => 1

/-- C4 (amended): one call of the line object-snap dispatch appends between
zero and two points to the caller-supplied array — exactly two (start and
end) in end-point mode, exactly one in mid-point, nearest, perpendicular
and tangent modes, and none for an unknown mode — and the base-entity
default appends nothing; no mode throws. -/
theorem c4_osnap_dispatch (l : AcDbLine) (mode : AcDbOsnapMode)
    (pickPoint lastPoint : AcGePoint3d) (snapPoints : List AcGePoint3d) :
    (∃ extra, l.subGetOsnapPoints mode pickPoint lastPoint snapPoints =
        snapPoints ++ extra ∧
      extra.length = osnapModeCount mode ∧ extra.length ≤ 2) ∧
    entityDefaultOsnapPoints mode pickPoint lastPoint snapPoints = snapPoints := by
  cases mode with
  | endPoint => exact ⟨⟨[l.startPoint, l.endPoint], rfl, rfl, by simp⟩, rfl⟩
  | midPoint => exact ⟨⟨[l.midPoint], rfl, rfl, by simp⟩, rfl⟩
  | nearest => exact ⟨⟨[l.geo.project pickPoint], rfl, rfl, by simp⟩, rfl⟩
  | perpendicular => exact ⟨⟨[l.geo.perpPoint pickPoint], rfl, rfl, by simp⟩, rfl⟩
  | tangent => exact ⟨⟨[l.startPoint], rfl, rfl, by simp⟩, rfl⟩
  | other => exact ⟨⟨[], by simp [AcDbLine.subGetOsnapPoints], rfl, by simp⟩, rfl⟩

/-- C4 (counterexample): the claim as stated says every mode appends zero
or one point, but the end-point mode appends two. -/
theorem c4_claim_false_endpoint_appends_two :
    ¬ ((exLine.subGetOsnapPoints AcDbOsnapMode.endPoint ⟨0, 0, 0⟩ ⟨0, 0, 0⟩
        []).length ≤ 1) := by
  decide

/-! ## Leader examples -/

/-- A spline-fit leader with no vertices yet. -/
def exLeaderBase : AcDbLeader := { AcDbLeader.new with isSplined := true }

/-- The spline-fit leader after appending one vertex. -/
def exLeaderOne : AcDbLeader := exLeaderBase.appendVertex ⟨0, 0, 0⟩

/-- The spline-fit leader after appending two vertices (dirty cache). -/
def exLeaderTwoDirty : AcDbLeader := exLeaderOne.appendVertex ⟨5, 5, 0⟩

/-- The two-vertex leader after one spline read (clean cache). -/
def exLeaderTwo : AcDbLeader := exLeaderTwoDirty.createSplineIfNeeded

/-- The clean leader after a third append (dirty again). -/
def exLeaderThreeDirty : AcDbLeader := exLeaderTwo.appendVertex ⟨10, 5, 0⟩

/-- C5: vertex access on the leader always throws, even for an in-range
index: for the one-vertex leader, index 0 is in range, yet both `vertexAt`
and `setVertexAt` throw the range error instead of reading or replacing
the stored vertex. -/
theorem c5_leader_vertex_access_always_throws :
    (0 : Int) < exLeaderOne.vertices.length ∧
    exLeaderOne.vertexAt 0 = Except.error "The vertex index is out of range!" ∧
    exLeaderOne.setVertexAt 0 ⟨1, 1, 0⟩ =
      Except.error "The vertex index is out of range!" ∧
    (∀ (l : AcDbLeader) (i : Int) (p : AcGePoint3d),
      (l.vertexAt i).isOk = false ∧ (l.setVertexAt i p).isOk = false) := by
  refine ⟨by norm_num [exLeaderOne, exLeaderBase, AcDbLeader.appendVertex,
    AcDbLeader.new], rfl, rfl, ?_⟩
  intro l i p
  constructor
  · unfold AcDbLeader.vertexAt
    split <;> rfl
  · unfold AcDbLeader.setVertexAt
    split <;> rfl

/-- C2: the lazy spline cache of the leader.  Appending always marks the
cache dirty and reading while dirty with at least two vertices rebuilds
from the current vertex list and turns the cache clean, a second read
rebuilds nothing, and with fewer than two vertices the cache stays absent;
but MODIFYING a vertex never marks the cache dirty, because `setVertexAt`
throws on every input (its bounds check is inverted) — evaluated here on
the clean two-vertex leader at the in-range index 0. -/
theorem c2_leader_lazy_spline_cache :
    (∀ (l : AcDbLeader) (p : AcGePoint3d), (l.appendVertex p).updated = true) ∧
    exLeaderTwoDirty.updated = true ∧
    exLeaderTwo.updated = false ∧
    exLeaderTwo.splineGeo = some ⟨[⟨0, 0, 0⟩, ⟨5, 5, 0⟩], "Uniform"⟩ ∧
    exLeaderThreeDirty.updated = true ∧
    exLeaderThreeDirty.createSplineIfNeeded.splineGeo =
      some ⟨[⟨0, 0, 0⟩, ⟨5, 5, 0⟩, ⟨10, 5, 0⟩], "Uniform"⟩ ∧
    exLeaderThreeDirty.createSplineIfNeeded.updated = false ∧
    (∀ l : AcDbLeader, l.createSplineIfNeeded.createSplineIfNeeded =
      l.createSplineIfNeeded) ∧
    exLeaderOne.createSplineIfNeeded.splineGeo = none ∧
    (0 : Int) < exLeaderTwo.vertices.length ∧
    exLeaderTwo.setVertexAt 0 ⟨1, 1, 0⟩ =
      Except.error "The vertex index is out of range!" ∧
    (∀ (i : Int) (p : AcGePoint3d), (exLeaderTwo.setVertexAt i p).isOk = false) := by
  refine ⟨fun l p => rfl, rfl, rfl, rfl, rfl, rfl, rfl, ?_, rfl,
    by norm_num [exLeaderTwo, exLeaderTwoDirty, exLeaderOne, exLeaderBase,
      AcDbLeader.appendVertex, AcDbLeader.new, AcDbLeader.createSplineIfNeeded],
    rfl, ?_⟩
  · intro l
    unfold AcDbLeader.createSplineIfNeeded
    split
    · rw [if_neg]
      rintro ⟨-, -, hbad⟩
      simp at hbad
    · rfl
  · intro i p
    unfold AcDbLeader.setVertexAt
    split <;> rfl

/-! ## C6: face edge visibility -/

/-- C6: for indices 0..3, `isEdgeVisibleAt` answers true exactly when the
corresponding mask bit is clear and `makeEdgeInvisibleAt` sets exactly that
bit, leaving the vertices untouched; any index outside 0..3 makes both
throw; in particular the mask 0b0101 yields invisible, visible, invisible,
visible for edges 0..3 and index 4 throws. -/
theorem c6_face_edge_visibility :
    (∀ (f : AcDbFace) (i : Int), 0 ≤ i → i ≤ 3 →
      f.isEdgeVisibleAt i = Except.ok (!(f.edgeInvisibilities.testBit i.toNat)) ∧
      ∃ f2, f.makeEdgeInvisibleAt i = Except.ok f2 ∧ f2.vertices = f.vertices ∧
        ∀ j, f2.edgeInvisibilities.testBit j =
          (f.edgeInvisibilities.testBit j || decide (i.toNat = j))) ∧
    (∀ (f : AcDbFace) (i : Int), i < 0 ∨ 3 < i →
      f.isEdgeVisibleAt i = Except.error "Index out of range" ∧
      f.makeEdgeInvisibleAt i = Except.error "Index out of range") ∧
    ((AcDbFace.mk [] 0b0101).isEdgeVisibleAt 0 = Except.ok false ∧
      (AcDbFace.mk [] 0b0101).isEdgeVisibleAt 1 = Except.ok true ∧
      (AcDbFace.mk [] 0b0101).isEdgeVisibleAt 2 = Except.ok false ∧
      (AcDbFace.mk [] 0b0101).isEdgeVisibleAt 3 = Except.ok true ∧
      (AcDbFace.mk [] 0b0101).isEdgeVisibleAt 4 = Except.error "Index out of range") := by
  refine ⟨?_, ?_, rfl, rfl, rfl, rfl, rfl⟩
  · intro f i h0 h3
    have hrange : ¬ (i < 0 ∨ i > 3) := by omega
    constructor
    · rw [AcDbFace.isEdgeVisibleAt, if_neg hrange]
      have hand : f.edgeInvisibilities &&& (1 <<< i.toNat) =
          (f.edgeInvisibilities.testBit i.toNat).toNat * 2 ^ i.toNat := by
        rw [Nat.one_shiftLeft, Nat.and_two_pow]
      cases hb : f.edgeInvisibilities.testBit i.toNat <;>
        simp [hand, hb, Nat.pow_eq_zero]
    · refine ⟨{ f with edgeInvisibilities :=
        f.edgeInvisibilities ||| (1 <<< i.toNat) }, ?_, rfl, ?_⟩
      · rw [AcDbFace.makeEdgeInvisibleAt, if_neg hrange]
      · intro j
        show (f.edgeInvisibilities ||| (1 <<< i.toNat)).testBit j = _
        rw [Nat.one_shiftLeft, Nat.testBit_lor, Nat.testBit_two_pow]
  · intro f i h
    have hrange : i < 0 ∨ i > 3 := h
    constructor
    · rw [AcDbFace.isEdgeVisibleAt, if_pos hrange]
    · rw [AcDbFace.makeEdgeInvisibleAt, if_pos hrange]

/-- C6 witness: the theorem applied to the concrete face with mask 5 at
edge index 1, whose hypotheses hold by computation. -/
theorem c6_witness :
    (0 : Int) ≤ 1 ∧ (1 : Int) ≤ 3 ∧
    (AcDbFace.mk [] 5).isEdgeVisibleAt 1 = Except.ok true := by
  refine ⟨by decide, by decide, ?_⟩
  have h := (c6_face_edge_visibility.1 ⟨[], 5⟩ 1 (by decide) (by decide)).1
  rw [show ((5 : Nat).testBit (Int.toNat 1)) = false from by decide] at h
  exact h

/-! ## C3: default style resolution -/

/-- A database whose layer 0 carries an explicit red color and the
Continuous linetype while the drawing default color is green. -/
def exDb : AcDbDatabase :=
  { cecolor := ⟨false, false, some 0x00ff00⟩
    layers := [⟨"0", ⟨false, false, some 0xff0000⟩, "Continuous"⟩]
    linetypes := [] }

/-- C3 (counterexample): on a database whose layer 0 has a concrete color,
a fully default entity resolves its RGB to the LAYER color, not to the
drawing default color `cecolor` as the claim states. -/
theorem c3_claim_false_layer_color_wins :
    AcDbEntityState.new.rgbColor exDb = 0xff0000 ∧
    exDb.cecolor.rgbValue = some 0x00ff00 ∧
    AcDbEntityState.new.rgbColor exDb ≠ 0x00ff00 := ⟨rfl, rfl, by decide⟩

/-- C3 (amended): for every database, an entity left at its constructor
defaults (layer 0, ByLayer color, ByLayer linetype) resolves `rgbColor` to
the layer color when layer 0 exists and has a concrete RGB, otherwise to
the drawing default color, otherwise to white 0xFFFFFF, never throwing; and
its `lineStyle.type` is ByLayer exactly when layer 0 exists and names a
linetype, otherwise the user-specified fallback. -/
theorem c3_default_style_resolution (db : AcDbDatabase) (oid : String)
    (lw : Int) (lts : ℝ) (vis : Bool) (tr : AcCmTransparency) :
    (AcDbEntityState.mk oid "0" AcCmColor.new ByLayerName lw lts vis
        tr).rgbColor db = defaultRgbColorAmended db ∧
    ((AcDbEntityState.mk oid "0" AcCmColor.new ByLayerName lw lts vis
        tr).lineStyle db).type = defaultLineStyleTypeAmended db := by
  constructor
  · rw [AcDbEntityState.rgbColor, defaultRgbColorAmended]
    simp only [AcDbEntityState.getLayerColor, AcCmColor.new]
    cases hl : db.layerGetAt "0" with
    | none => cases hce : db.cecolor.rgbValue <;> simp [hce]
    | some layer =>
      cases hc : layer.color.rgbValue with
      | none => cases hce : db.cecolor.rgbValue <;> simp [hc, hce]
      | some c => simp [hc]
  · rw [AcDbEntityState.lineStyle, AcDbEntityState.getLineType,
      defaultLineStyleTypeAmended]
    simp only [if_pos rfl]
    cases hl : db.layerGetAt "0" with
    | none => cases h2 : db.linetypeGetAt DefaultLineTypeName <;> simp [h2]
    | some layer =>
      by_cases hlt : layer.linetype ≠ ""
      · simp only [if_pos hlt]
        cases h2 : db.linetypeGetAt layer.linetype <;> simp [hlt, h2]
      · simp only [if_neg hlt]
        cases h2 : db.linetypeGetAt DefaultLineTypeName <;> simp [hlt, h2]

/-! ## C1: raster image boundary path -/

/-- An unclipped 100 by 50 raster image at the origin with rotation 0. -/
def exImg : AcDbRasterImage :=
  { brightness := 50, contrast := 50, fade := 0, width := 100, height := 50,
    position := ⟨0, 0, 0⟩, rotation := 0, scale := ⟨1, 1⟩,
    clipBoundaryType := 1, clipBoundary := [], imageDefId := "",
    isClipped := false, isShownClipped := false, isImageShown := true,
    isImageTransparent := false, hasImage := false }

/-- The same image with the nonzero rotation minus pi. -/
noncomputable def exImgNeg : AcDbRasterImage := { exImg with rotation := -Real.pi }

/-- C1 (counterexample): for a NEGATIVE (hence nonzero) rotation the claim
prescribes the rectangle rotated about vertex 1, but the source only
rotates for a strictly positive rotation and returns the unrotated
rectangle, so the two disagree at rotation minus pi. -/
theorem c1_claim_false_negative_rotation :
    exImgNeg.boundaryPath ≠ boundaryPathClaimed exImgNeg := by
  have hrotneg : ¬ ((0 : ℝ) < -Real.pi) :=
    not_lt.mpr (neg_nonpos.mpr Real.pi_pos.le)
  have hrotne : (-Real.pi : ℝ) ≠ 0 := neg_ne_zero.mpr Real.pi_ne_zero
  intro h
  rw [AcDbRasterImage.boundaryPath, boundaryPathClaimed] at h
  simp only [exImgNeg, exImg, Bool.false_eq_true, false_and, if_false,
    if_neg hrotneg, List.map_cons, List.map_nil, if_pos hrotne] at h
  norm_num [rotateXYAround, rotateAround, Real.cos_neg, Real.sin_neg,
    Real.cos_pi, Real.sin_pi, AcGePoint3d.mk.injEq, List.cons.injEq] at h

/-- C1 (amended): the boundary path agrees with the amended description on
every raster image — clipped with at least four boundary points it maps the
clip vertices to world space through scale and the minimum-corner
translation, otherwise it synthesizes the rectangle corners, rotates
vertices 1..3 about vertex 1 only for a strictly POSITIVE rotation, and
closes the loop with the first point — and on the concrete unclipped
100 by 50 image at the origin with rotation 0 it returns the 5-point
closed rectangle. -/
theorem c1_boundary_path (img : AcDbRasterImage) :
    img.boundaryPath = boundaryPathAmended img ∧
    exImg.boundaryPath =
      [⟨0, 0, 0⟩, ⟨100, 0, 0⟩, ⟨100, 50, 0⟩, ⟨0, 50, 0⟩, ⟨0, 0, 0⟩] := by
  constructor
  · rw [AcDbRasterImage.boundaryPath, boundaryPathAmended]
    by_cases hc : (img.isClipped : Prop) ∧ 3 < img.clipBoundary.length
    · rw [if_pos hc,
        if_pos (show (img.isClipped : Prop) ∧ 4 ≤ img.clipBoundary.length from hc)]
      cases hcb : img.clipBoundary with
      | nil => rw [hcb] at hc; simp at hc
      | cons q qs =>
        simp only [hcb, List.map_cons]
        rw [(box2FromPoints_min qs q).1, (box2FromPoints_min qs q).2]
    · rw [if_neg hc,
        if_neg (show ¬ ((img.isClipped : Prop) ∧ 4 ≤ img.clipBoundary.length) from hc)]
      by_cases hr : (0 : ℝ) < img.rotation
      · simp only [if_pos hr, List.map_cons, List.map_nil]
        rfl
      · simp only [if_neg hr]
        rfl
  · rw [AcDbRasterImage.boundaryPath]
    have : ¬ ((exImg.isClipped : Prop) ∧ 3 < exImg.clipBoundary.length) := by
      simp [exImg]
    rw [if_neg this]
    have hr : ¬ ((0 : ℝ) < exImg.rotation) := by norm_num [exImg]
    rw [if_neg hr]
    norm_num [exImg, AcGePoint3d.mk.injEq]

/-! ## C8: property reflection round trip -/

/-- C8 (amended): for every modelled concrete entity type and every
editable property of every group of its properties tree, writing a value of
the property kind through the corresponding typed setter and reading it
back through the property accessor yields that same value — the accessor
reads the live backing field — with the single exception the setter
normalization forces: the linetype setter stores the ByLayer constant when
given the empty string.  Entities without a `properties` override inherit
exactly the general group, covered by the first conjunct. -/
theorem c8_property_roundtrip :
    (∀ d ∈ entityBaseProps, d.editable = true → RoundTripOK d) ∧
    (∀ d ∈ linePropsList, d.editable = true → RoundTripOK d) ∧
    (∀ d ∈ pointPropsList, d.editable = true → RoundTripOK d) ∧
    (∀ d ∈ textPropsList, d.editable = true → RoundTripOK d) ∧
    (∀ d ∈ circlePropsList, d.editable = true → RoundTripOK d) ∧
    (∀ d ∈ arcPropsList, d.editable = true → RoundTripOK d) ∧
    (∀ d ∈ ellipsePropsList, d.editable = true → RoundTripOK d) ∧
    (∀ d ∈ rayPropsList, d.editable = true → RoundTripOK d) ∧
    (∀ d ∈ xlinePropsList, d.editable = true → RoundTripOK d) ∧
    (∀ d ∈ mtextPropsList, d.editable = true → RoundTripOK d) := by
  refine ⟨?_, ?_, ?_, ?_, ?_, ?_, ?_, ?_, ?_, ?_⟩ <;>
  · intro d hd
    simp only [entityBaseProps, linePropsList, pointPropsList, textPropsList,
      circlePropsList, arcPropsList, ellipsePropsList, rayPropsList,
      xlinePropsList, mtextPropsList, generalProps, pointCoordProps,
      floatProp, strProp, enumProp, linePropStartX,
      List.cons_append, List.nil_append] at hd
    fin_cases hd <;>
      first
      | (intro he; exact Bool.noConfusion he)
      | (intro _ s v hv; cases v <;>
          first
          | rfl
          | simp [valueKind, ptypeValueKind] at hv)

/-- C8 (counterexample): the claim as stated fails on the linetype property
of the general group that every entity inherits: writing the empty string
through the typed linetype setter reads back as the ByLayer constant, not
as the empty string. -/
theorem c8_claim_false_linetype_empty :
    entityLinetypeProp ∈ entityBaseProps ∧
    entityLinetypeProp.get (entityLinetypeProp.typedSet (AcValue.str "")
      AcDbEntityState.new) ≠ AcValue.str "" := by
  constructor
  · exact List.Mem.tail _ (List.Mem.tail _ (List.Mem.tail _ (List.Mem.head _)))
  · intro h
    simp [entityLinetypeProp, AcDbEntityState.setLineType, ByLayerName,
      AcDbEntityState.new] at h

/-- C8 witness: the amended round trip applied to the startX property of
the line entity at the value 5, every hypothesis discharged concretely. -/
theorem c8_witness :
    linePropStartX ∈ linePropsList ∧ linePropStartX.editable = true ∧
    valueKind (AcValue.num 5) = ptypeValueKind linePropStartX.ptype ∧
    linePropStartX.get (linePropStartX.typedSet (AcValue.num 5)
      (AcDbEntityState.new, exLine)) = AcValue.num 5 := by
  have hm : linePropStartX ∈ linePropsList :=
    List.mem_append_right _ (List.mem_cons_self _ _)
  exact ⟨hm, rfl, rfl, c8_property_roundtrip.2.1 linePropStartX hm rfl
    (AcDbEntityState.new, exLine) (AcValue.num 5) rfl⟩
